import Mathlib

/- Shallow embedding of the projects-app API (app/project of
   carlos28d/projects-app-api): the data model, the ownership-scoped
   querysets of views.py, the serializer semantics of serializers.py, and
   the routing surface of urls.py.  Framework behaviour that the source
   relies on (DRF object lookup through get_queryset, the multipart
   treatment of an omitted many-to-many field, required-field validation)
   is embedded exactly as the repository's own test suite
   (tests/test_project_api.py) pins it down. -/

namespace ProjectsApp

/-- A tag record: core.models.Tag with identifier, name and owner (the
Django user the record is scoped to). -/
structure Tag where
  id : Nat
  name : String
  owner : Nat
deriving DecidableEq

/-- A project record: core.models.Project with identifier, title,
description, price (modelled as a scaled integer), link, owner, and the
many-to-many tag relation as the set of attached tag identifiers. -/
structure Project where
  id : Nat
  title : String
  description : String
  price : Int
  link : String
  owner : Nat
  tags : List Nat
deriving DecidableEq

/-- The persistent store: the tag table and the project table (with the
tag relation inlined into each project row). -/
structure DB where
  tags : List Tag
  projects : List Project
deriving DecidableEq

/-- Error outcomes a request can surface: 404 NotFound, 403 Forbidden,
400 ValidationError, 401 Unauthenticated, and an unhandled Python
conversion error (ValueError escaping as a 500). -/
inductive ApiError where
  | NotFound
  | Forbidden
  | ValidationError
  | Unauthenticated
  | ConversionError
deriving DecidableEq

/-- Well-formed store: row identifiers are unique per table. -/
def DB.WF (db : DB) : Prop :=
  (db.tags.map Tag.id).Nodup ∧ (db.projects.map Project.id).Nodup

instance (db : DB) : Decidable db.WF :=
  inferInstanceAs (Decidable (_ ∧ _))

/-- ORDER BY -name comparison on tags (views.py line 28). -/
def tagGe (a b : Tag) : Prop := b.name ≤ a.name

instance : DecidableRel tagGe := fun a b => inferInstanceAs (Decidable (b.name ≤ a.name))

instance : IsTotal Tag tagGe := ⟨fun a b => le_total b.name a.name⟩

instance : IsTrans Tag tagGe := ⟨fun _ _ _ hab hbc => le_trans hbc hab⟩

/-- Identifier-descending comparison on projects. -/
def projGe (a b : Project) : Prop := b.id ≤ a.id

instance : DecidableRel projGe := fun a b => Nat.decLe b.id a.id

instance : IsTotal Project projGe := ⟨fun a b => Nat.le_total b.id a.id⟩

instance : IsTrans Project projGe := ⟨fun _ _ _ hab hbc => Nat.le_trans hbc hab⟩

/-- BaseProjectAttrViewSet.get_queryset (views.py lines 17-28): when the
assigned-only flag is set, the relational filter recipe__isnull=False joins
each tag with its project attachments (one row per attachment, so a tag
attached to several projects appears several times; the reverse
many-to-many accessor is declared in core/models.py, which is not under
src/, and is modelled from the spec as the tag-to-project attachment
relation); then the rows are restricted to the requesting user, ordered by
name descending, and deduplicated by DISTINCT.  tagAssignedRows is the
join: one row per tag-project attachment. -/
def tagAssignedRows (db : DB) : List Tag :=
  db.tags.flatMap (fun t =>
    (db.projects.filter (fun p => t.id ∈ p.tags)).map (fun _ => t))

/-- The tag queryset proper: the optional assigned-only join, the owner
filter, ORDER BY name descending, and DISTINCT. -/
def tagListQueryset (db : DB) (identity : Nat) (assignedOnly : Bool) : List Tag :=
  (((if assignedOnly then tagAssignedRows db else db.tags).filter
      (fun t => t.owner = identity)).insertionSort tagGe).dedup

/-- Modelled from the spec: the default ordering of Project.objects.all()
comes from the model Meta in core/models.py, which is not under src/;
ProjectViewSet.get_queryset itself (views.py lines 48-50) adds no order_by.
The spec and the repository's own list test fix the ordering as identifier
descending (most recently created first), so the store is modelled as
serving project rows in that order. -/
def projectStoreOrdered (db : DB) : List Project :=
  db.projects.insertionSort projGe

/-- ProjectViewSet.get_queryset (views.py lines 48-50): the project rows
restricted to the requesting user. -/
def projectQueryset (db : DB) (identity : Nat) : List Project :=
  (projectStoreOrdered db).filter (fun p => p.owner = identity)

/-- Digit run to a natural number. -/
def digitsToNat (cs : List Char) : Nat :=
  cs.foldl (fun acc c => acc * 10 + (c.toNat - 48)) 0

/-- Whitespace stripped by Python int() before parsing. -/
def isPySpace (c : Char) : Bool :=
  c = ' ' ∨ c = '\t' ∨ c = '\n' ∨ c = '\r'

/-- Strip surrounding whitespace from a character list. -/
def trimChars (cs : List Char) : List Char :=
  ((cs.dropWhile isPySpace).reverse.dropWhile isPySpace).reverse

/-- Python int(str) as used on query parameters: optional surrounding
whitespace, an optional sign, then one or more decimal digits; any other
string raises ValueError, modelled as none. -/
def pyInt? (s : String) : Option Int :=
  match trimChars s.toList with
  | '-' :: rest =>
      if rest ≠ [] ∧ rest.all Char.isDigit then some (-(digitsToNat rest : Int)) else none
  | '+' :: rest =>
      if rest ≠ [] ∧ rest.all Char.isDigit then some ((digitsToNat rest : Int)) else none
  | other =>
      if other ≠ [] ∧ other.all Char.isDigit then some ((digitsToNat other : Int)) else none

/-- Outcome of reading the assigned_only query parameter. -/
inductive ParamResult where
  | ok (b : Bool)
  | conversionError
deriving DecidableEq

/-- Lines 19-21 of views.py: bool(int(request.query_params.get(
'assigned_only', 0))).  A missing parameter defaults to 0; a present one
goes through int(), so any nonzero parse enables the filter and a
non-integer value raises an unhandled ValueError. -/
def parseAssignedOnly (param : Option String) : ParamResult :=
  match param with
  | none => ParamResult.ok false
  | some s =>
      match pyInt? s with
      | some n => ParamResult.ok (decide (n ≠ 0))
      | none => ParamResult.conversionError

/-- The tag list request end to end: parameter parsing followed by the
scoped queryset. -/
def tagListRequest (db : DB) (identity : Nat) (param : Option String) :
    Except ApiError (List Tag) :=
  match parseAssignedOnly param with
  | ParamResult.conversionError => Except.error ApiError.ConversionError
  | ParamResult.ok b => Except.ok (tagListQueryset db identity b)

/-- The request actions DRF routes on a resource: list, create, retrieve,
update (PUT), patch (partial_update, PATCH), destroy (DELETE). -/
inductive ApiAction where
  | list
  | create
  | retrieve
  | update
  | patch
  | destroy
deriving DecidableEq

/-- Actions contributed by mixins.ListModelMixin. -/
def listModelMixinActions : List ApiAction := [ApiAction.list]

/-- Actions contributed by mixins.CreateModelMixin. -/
def createModelMixinActions : List ApiAction := [ApiAction.create]

/-- BaseProjectAttrViewSet (views.py lines 10-15) combines GenericViewSet,
which contributes no actions, with the list and create mixins only. -/
def baseProjectAttrViewSetActions : List ApiAction :=
  listModelMixinActions ++ createModelMixinActions

/-- TagViewSet (views.py lines 35-38) inherits its action surface from
BaseProjectAttrViewSet unchanged. -/
def tagViewSetActions : List ApiAction := baseProjectAttrViewSetActions

/-- ModelViewSet provides the full action set. -/
def modelViewSetActions : List ApiAction :=
  [ApiAction.list, ApiAction.create, ApiAction.retrieve,
   ApiAction.update, ApiAction.patch, ApiAction.destroy]

/-- ProjectViewSet (views.py lines 41-61) is a ModelViewSet. -/
def projectViewSetActions : List ApiAction := modelViewSetActions

/-- Actions reached through an item (detail) route. -/
def isItemAction : ApiAction → Bool
  | ApiAction.retrieve => true
  | ApiAction.update => true
  | ApiAction.patch => true
  | ApiAction.destroy => true
  | _ => false

/-- The two project serializer classes of serializers.py. -/
inductive SerializerClass where
  | projectSerializer
  | projectDetailSerializer
deriving DecidableEq

/-- ProjectViewSet.get_serializer_class (views.py lines 52-57): the detail
serializer exactly for the retrieve action, the write/list serializer for
everything else. -/
def get_serializer_class (a : ApiAction) : SerializerClass :=
  if a = ApiAction.retrieve then SerializerClass.projectDetailSerializer
  else SerializerClass.projectSerializer

/-- TagSerializer output shape: id and name. -/
structure TagOut where
  id : Nat
  name : String
deriving DecidableEq

/-- How the tags field of a serialized project is represented: bare tag
identifiers (PrimaryKeyRelatedField, the write/list shape) or embedded
TagSerializer objects (the detail shape). -/
inductive TagsField where
  | refs (ids : List Nat)
  | embedded (tags : List TagOut)
deriving DecidableEq

/-- A serialized project: the field tuple of serializers.py lines 24-26. -/
structure ProjectOut where
  id : Nat
  title : String
  description : String
  price : Int
  link : String
  tags : TagsField
deriving DecidableEq

/-- Serialization of one project under a serializer class:
ProjectSerializer renders the tag relation as bare identifiers;
ProjectDetailSerializer overrides tags with TagSerializer(many=True),
embedding each attached tag as an id-name object. -/
def serializeProject (cls : SerializerClass) (db : DB) (p : Project) : ProjectOut :=
  { id := p.id
    title := p.title
    description := p.description
    price := p.price
    link := p.link
    tags :=
      match cls with
      | SerializerClass.projectSerializer => TagsField.refs p.tags
      | SerializerClass.projectDetailSerializer =>
          TagsField.embedded
            ((db.tags.filter (fun t => t.id ∈ p.tags)).map (fun t => ⟨t.id, t.name⟩)) }

/-- A write payload for the project serializer: exactly the writable
fields of serializers.py lines 24-27 (id is read-only and the owner is
never client-supplied); none means the field was absent from the request
body. -/
structure Payload where
  title : Option String
  description : Option String
  price : Option Int
  link : Option String
  tags : Option (List Nat)
deriving DecidableEq

/-- The two write modes: full is PUT, merge is PATCH (DRF partial mode). -/
inductive UpdateMode where
  | full
  | merge
deriving DecidableEq

/-- DRF object lookup: get_object_or_404 over the view's queryset, so the
row must both exist and be owned by the requesting identity. -/
def findProject (db : DB) (identity pid : Nat) : Option Project :=
  (projectQueryset db identity).find? (fun p => p.id = pid)

/-- Validation of the tags field (serializers.py lines 17-20):
PrimaryKeyRelatedField with queryset=Tag.objects.all(), so each supplied
identifier must name an existing tag row — of any owner. -/
def tagsExist (db : DB) (l : List Nat) : Bool :=
  l.all (fun tid => db.tags.any (fun t => t.id = tid))

/-- The value the many-to-many tags field takes after DRF field access on
a multipart body (the test client's format, pinned by the repository's own
update tests): a supplied list is taken as given, an absent field is
skipped in merge (partial) mode but read as the empty list in full mode. -/
def effectiveTags (payload : Payload) (mode : UpdateMode) : Option (List Nat) :=
  match payload.tags with
  | some l => some l
  | none =>
      match mode with
      | UpdateMode.merge => none
      | UpdateMode.full => some []

/-- Required-field validation: title, description and price are required
model fields, enforced only in full (PUT) mode; in merge (PATCH) mode
every field may be omitted. -/
def requiredPresent (payload : Payload) (mode : UpdateMode) : Bool :=
  match mode with
  | UpdateMode.merge => true
  | UpdateMode.full =>
      payload.title.isSome && payload.description.isSome && payload.price.isSome

/-- Application of validated data to a project row: supplied scalar fields
replace the old values, omitted ones keep them; a present tags value
replaces the whole relation (set semantics), an absent one leaves it. -/
def applyUpdate (p : Project) (payload : Payload) (tagsVal : Option (List Nat)) :
    Project :=
  { id := p.id
    title := payload.title.getD p.title
    description := payload.description.getD p.description
    price := payload.price.getD p.price
    link := payload.link.getD p.link
    owner := p.owner
    tags :=
      match tagsVal with
      | some l => l.dedup
      | none => p.tags }

/-- A project update request (PUT or PATCH): object lookup through the
owner-scoped queryset (404 on miss), then field validation, then the
write. -/
def updateProject (db : DB) (identity pid : Nat) (payload : Payload)
    (mode : UpdateMode) : Except ApiError DB :=
  match findProject db identity pid with
  | none => Except.error ApiError.NotFound
  | some _ =>
      let tv := effectiveTags payload mode
      if requiredPresent payload mode = false then
        Except.error ApiError.ValidationError
      else if tagsExist db (tv.getD []) = false then
        Except.error ApiError.ValidationError
      else
        Except.ok
          { db with
            projects :=
              db.projects.map (fun q =>
                if q.id = pid ∧ q.owner = identity then applyUpdate q payload tv
                else q) }

/-- A project create request: required-field and tag validation as in
update (an absent tags field reads as the empty list), then insertion of a
fresh row whose owner is force-assigned from the request identity
(perform_create, views.py lines 59-61); newId is the store-assigned
identifier. -/
def createProject (db : DB) (identity : Nat) (payload : Payload) (newId : Nat) :
    Except ApiError DB :=
  let tv := payload.tags.getD []
  if (payload.title.isSome && payload.description.isSome && payload.price.isSome)
      = false then
    Except.error ApiError.ValidationError
  else if tagsExist db tv = false then
    Except.error ApiError.ValidationError
  else
    Except.ok
      { db with
        projects :=
          db.projects ++
            [{ id := newId
               title := payload.title.getD ""
               description := payload.description.getD ""
               price := payload.price.getD 0
               link := payload.link.getD ""
               owner := identity
               tags := tv.dedup }] }

/-- A project retrieve request: object lookup through the owner-scoped
queryset; a row owned by someone else is a 404, exactly like a row that
does not exist. -/
def retrieveProject (db : DB) (identity pid : Nat) : Except ApiError Project :=
  match findProject db identity pid with
  | none => Except.error ApiError.NotFound
  | some p => Except.ok p

/-- A project delete request: object lookup through the owner-scoped
queryset, then row removal. -/
def deleteProject (db : DB) (identity pid : Nat) : Except ApiError DB :=
  match findProject db identity pid with
  | none => Except.error ApiError.NotFound
  | some _ =>
      Except.ok
        { db with
          projects :=
            db.projects.filter (fun q => ¬(q.id = pid ∧ q.owner = identity)) }

/-- A tag item request: the DefaultRouter only registers a detail route
for the item actions the viewset declares, and TagViewSet declares none,
so every tag item request resolves to a 404 before reaching any handler. -/
def tagItemRequest (db : DB) (identity tid : Nat) (a : ApiAction) :
    Except ApiError Tag :=
  if a ∈ tagViewSetActions ∧ isItemAction a = true then
    match (tagListQueryset db identity false).find? (fun t => t.id = tid) with
    | some t => Except.ok t
    | none => Except.error ApiError.NotFound
  else Except.error ApiError.NotFound

/-- Store used to exercise cross-identity tag references: identity 1 owns
the only tag, identity 2 owns the only project. -/
def c2db : DB :=
  { tags := [{ id := 5, name := "alpha", owner := 1 }]
    projects := [{ id := 10, title := "Sample project",
                   description := "This is a sample project", price := 500,
                   link := "", owner := 2, tags := [] }] }

/-- A PATCH payload that supplies only a tags list referencing tag 5. -/
def c2payload : Payload :=
  { title := none, description := none, price := none, link := none,
    tags := some [5] }

/-- The store after identity 2 patches its project with identity 1's tag. -/
def c2db2 : DB :=
  { tags := [{ id := 5, name := "alpha", owner := 1 }]
    projects := [{ id := 10, title := "Sample project",
                   description := "This is a sample project", price := 500,
                   link := "", owner := 2, tags := [5] }] }

/-- Store with one owner, one tag and one tagged project, used to exercise
the update scenarios of the test suite. -/
def c3db : DB :=
  { tags := [{ id := 1, name := "Main project", owner := 1 }]
    projects := [{ id := 10, title := "Sample project",
                   description := "This is a sample project", price := 500,
                   link := "", owner := 1, tags := [1] }] }

/-- The PUT payload of test_full_update_project: title, description and
price supplied, tags omitted. -/
def c3payload : Payload :=
  { title := some "Massive RPG"
    description := some "Massive RPG fantasy themed"
    price := some 5000, link := none, tags := none }

/-- The store after the full update: all scalar fields replaced, the tag
set cleared. -/
def c3db2 : DB :=
  { tags := [{ id := 1, name := "Main project", owner := 1 }]
    projects := [{ id := 10, title := "Massive RPG",
                   description := "Massive RPG fantasy themed", price := 5000,
                   link := "", owner := 1, tags := [] }] }

/-- Store with three tags and one project tagged 1 and 2, used to exercise
the PATCH-only-tags scenario. -/
def c4db : DB :=
  { tags := [{ id := 1, name := "Internal", owner := 1 },
             { id := 2, name := "External", owner := 1 },
             { id := 3, name := "Extra", owner := 1 }]
    projects := [{ id := 10, title := "Sample project",
                   description := "This is a sample project", price := 500,
                   link := "", owner := 1, tags := [1, 2] }] }

/-- The store after patching only the tags field to the single tag 3. -/
def c4db2 : DB :=
  { tags := c4db.tags
    projects := [{ id := 10, title := "Sample project",
                   description := "This is a sample project", price := 500,
                   link := "", owner := 1, tags := [3] }] }

/-- Store used for the ownership-isolation witness: identity 1 owns one
tag and one tagged project; identity 2 owns nothing. -/
def c1db : DB :=
  { tags := [{ id := 5, name := "alpha", owner := 1 }]
    projects := [{ id := 10, title := "Sample project",
                   description := "This is a sample project", price := 500,
                   link := "", owner := 1, tags := [5] }] }

/-- A sample project owned by identity 1 with the given identifier,
mirroring sample_project of the test suite. -/
def sampleProject (i : Nat) : Project :=
  { id := i, title := "Sample project",
    description := "This is a sample project", price := 500, link := "",
    owner := 1, tags := [] }

/-- Store holding three projects created in order 1, 2, 3. -/
def c7db : DB :=
  { tags := [], projects := [sampleProject 1, sampleProject 2, sampleProject 3] }

/-- Membership in the scoped project queryset: the row is in the store and
owned by the requesting identity. -/
theorem mem_projectQueryset {db : DB} {identity : Nat} {p : Project} :
    p ∈ projectQueryset db identity ↔ p ∈ db.projects ∧ p.owner = identity := by
  unfold projectQueryset projectStoreOrdered
  rw [List.mem_filter, (List.perm_insertionSort projGe db.projects).mem_iff]
  simp

/-- Membership in the assigned-only join rows: the tag is in the store
and attached to at least one project. -/
theorem mem_tagAssignedRows {db : DB} {t : Tag} :
    t ∈ tagAssignedRows db ↔ t ∈ db.tags ∧ ∃ p ∈ db.projects, t.id ∈ p.tags := by
  unfold tagAssignedRows
  simp only [List.mem_flatMap, List.mem_map, List.mem_filter, decide_eq_true_eq]
  constructor
  · rintro ⟨t', ht', p, ⟨hp, hpt⟩, rfl⟩
    exact ⟨ht', p, hp, hpt⟩
  · rintro ⟨ht, p, hp, hpt⟩
    exact ⟨t, ht, p, ⟨hp, hpt⟩, rfl⟩

/-- Membership in the scoped tag queryset: owned by the requesting
identity, and attached to at least one project when the assigned-only
filter is active. -/
theorem mem_tagListQueryset {db : DB} {identity : Nat} {ao : Bool} {t : Tag} :
    t ∈ tagListQueryset db identity ao ↔
      t ∈ db.tags ∧ t.owner = identity ∧
        (ao = true → ∃ p ∈ db.projects, t.id ∈ p.tags) := by
  unfold tagListQueryset
  rw [List.mem_dedup, (List.perm_insertionSort tagGe _).mem_iff, List.mem_filter]
  cases ao with
  | false => simp
  | true =>
      simp only [if_true, eq_self_iff_true, ite_true, mem_tagAssignedRows,
        decide_eq_true_eq, forall_true_left]
      tauto

/-- The tag queryset is sorted by name descending. -/
theorem tagListQueryset_sorted (db : DB) (identity : Nat) (ao : Bool) :
    (tagListQueryset db identity ao).Pairwise tagGe := by
  unfold tagListQueryset
  exact List.Pairwise.sublist (List.dedup_sublist _)
    (List.sorted_insertionSort tagGe _)

/-- The project queryset is sorted by identifier descending. -/
theorem projectQueryset_sorted (db : DB) (identity : Nat) :
    (projectQueryset db identity).Pairwise projGe := by
  unfold projectQueryset projectStoreOrdered
  exact List.Pairwise.filter _ (List.sorted_insertionSort projGe _)

/-- In a well-formed store, another identity's project is invisible to the
scoped lookup. -/
theorem findProject_none_of_other_owner {db : DB} {A B : Nat} {p : Project}
    (hWF : db.WF) (hmem : p ∈ db.projects) (hown : p.owner = A) (hne : A ≠ B) :
    findProject db B p.id = none := by
  unfold findProject
  rw [List.find?_eq_none]
  intro q hq hq_id
  rw [mem_projectQueryset] at hq
  have hid : q.id = p.id := by simpa using hq_id
  have hqp : q = p := List.inj_on_of_nodup_map hWF.2 hq.1 hmem hid
  exact hne (hown ▸ hqp ▸ hq.2)

/-- When the payload carries a tags list, both update modes see exactly
that list. -/
theorem effectiveTags_of_some {payload : Payload} {l : List Nat}
    (hl : payload.tags = some l) (mode : UpdateMode) :
    effectiveTags payload mode = some l := by
  unfold effectiveTags
  rw [hl]

/-- Characterization of a successful project update. -/
theorem updateProject_ok_iff {db : DB} {identity pid : Nat} {payload : Payload}
    {mode : UpdateMode} {db2 : DB} :
    updateProject db identity pid payload mode = Except.ok db2 ↔
      (∃ p, findProject db identity pid = some p) ∧
      requiredPresent payload mode = true ∧
      tagsExist db ((effectiveTags payload mode).getD []) = true ∧
      db2 = { db with
        projects :=
          db.projects.map (fun q =>
            if q.id = pid ∧ q.owner = identity then
              applyUpdate q payload (effectiveTags payload mode)
            else q) } := by
  cases hf : findProject db identity pid with
  | none => simp [updateProject, hf]
  | some p =>
      cases hr : requiredPresent payload mode with
      | false => simp [updateProject, hf, hr]
      | true =>
          cases ht : tagsExist db ((effectiveTags payload mode).getD []) with
          | false => simp [updateProject, hf, ht]
          | true =>
              simp [updateProject, hf, hr, ht]
              exact eq_comm

/-- C5: a project response uses the detail shape (tags embedded as
id-name objects) exactly when the action is a single-record retrieve;
list, create, update and patch responses carry tags as bare
identifiers. -/
theorem detail_shape_iff_retrieve :
    (∀ a : ApiAction,
        get_serializer_class a = SerializerClass.projectDetailSerializer ↔
          a = ApiAction.retrieve) ∧
    (∀ (db : DB) (p : Project),
        (serializeProject (get_serializer_class ApiAction.retrieve) db p).tags =
          TagsField.embedded
            ((db.tags.filter (fun t => t.id ∈ p.tags)).map
              (fun t => { id := t.id, name := t.name }))) ∧
    (∀ (db : DB) (p : Project),
        (serializeProject (get_serializer_class ApiAction.list) db p).tags =
          TagsField.refs p.tags) ∧
    (∀ (db : DB) (p : Project),
        (serializeProject (get_serializer_class ApiAction.create) db p).tags =
          TagsField.refs p.tags) ∧
    (∀ (db : DB) (p : Project),
        (serializeProject (get_serializer_class ApiAction.update) db p).tags =
          TagsField.refs p.tags) ∧
    (∀ (db : DB) (p : Project),
        (serializeProject (get_serializer_class ApiAction.patch) db p).tags =
          TagsField.refs p.tags) ∧
    (∀ (db : DB) (p : Project),
        (serializeProject (get_serializer_class ApiAction.destroy) db p).tags =
          TagsField.refs p.tags) := by
  refine ⟨?_, fun _ _ => rfl, fun _ _ => rfl, fun _ _ => rfl, fun _ _ => rfl,
    fun _ _ => rfl, fun _ _ => rfl⟩
  intro a
  cases a <;> simp [get_serializer_class]

/-- C7: the project list holds exactly the requesting identity's projects,
ordered by identifier descending; in particular three projects created in
order 1, 2, 3 are listed as 3, 2, 1. -/
theorem project_list_desc_by_id (db : DB) (identity : Nat) :
    (projectQueryset db identity).Pairwise (fun a b => b.id ≤ a.id) ∧
    (∀ p : Project,
        p ∈ projectQueryset db identity ↔ p ∈ db.projects ∧ p.owner = identity) ∧
    projectQueryset c7db 1 = [sampleProject 3, sampleProject 2, sampleProject 1] := by
  refine ⟨projectQueryset_sorted db identity, fun p => mem_projectQueryset, ?_⟩
  rfl

/-- C8: the tag list holds exactly the requesting identity's tags (when no
assigned-only filter is given) and is ordered by name descending under
either filter setting. -/
theorem tag_list_desc_by_name (db : DB) (identity : Nat) (ao : Bool) :
    (tagListQueryset db identity ao).Pairwise (fun a b => b.name ≤ a.name) ∧
    (∀ t : Tag,
        t ∈ tagListQueryset db identity false ↔ t ∈ db.tags ∧ t.owner = identity) := by
  refine ⟨tagListQueryset_sorted db identity ao, fun t => ?_⟩
  rw [mem_tagListQueryset]
  simp

/-- C9 counterexample: the claim says the tag resource exposes item-level
retrieve, but TagViewSet only combines the list and create mixins, so no
retrieve action exists on the tag resource. -/
theorem tag_item_retrieve_missing : ApiAction.retrieve ∉ tagViewSetActions := by
  decide

/-- C9 amended: the tag resource exposes only collection-level list and
create; none of the item-level actions (retrieve, update, patch, destroy)
exist on it, while the project resource exposes all six actions. -/
theorem tag_actions_list_create_only :
    tagViewSetActions = [ApiAction.list, ApiAction.create] ∧
    ApiAction.list ∈ tagViewSetActions ∧
    ApiAction.create ∈ tagViewSetActions ∧
    ApiAction.retrieve ∉ tagViewSetActions ∧
    ApiAction.update ∉ tagViewSetActions ∧
    ApiAction.patch ∉ tagViewSetActions ∧
    ApiAction.destroy ∉ tagViewSetActions ∧
    projectViewSetActions =
      [ApiAction.list, ApiAction.create, ApiAction.retrieve,
       ApiAction.update, ApiAction.patch, ApiAction.destroy] := by
  decide

/-- C10: the assigned_only parameter goes through Python int conversion:
any value parsing to a nonzero integer (such as 2) enables the filter
exactly as 1 does, a value parsing to zero disables it, and a value that
does not parse as an integer surfaces an unhandled conversion error,
which is a different error kind than ValidationError. -/
theorem assigned_only_int_conversion (db : DB) (identity : Nat) (s : String) :
    (tagListRequest db identity (some s) =
      match pyInt? s with
      | some n => Except.ok (tagListQueryset db identity (decide (n ≠ 0)))
      | none => Except.error ApiError.ConversionError) ∧
    tagListRequest db identity none = Except.ok (tagListQueryset db identity false) ∧
    pyInt? "2" = some 2 ∧
    pyInt? "1" = some 1 ∧
    pyInt? "0" = some 0 ∧
    pyInt? "abc" = none ∧
    pyInt? "" = none ∧
    tagListRequest db identity (some "2") =
      Except.ok (tagListQueryset db identity true) ∧
    tagListRequest db identity (some "1") =
      Except.ok (tagListQueryset db identity true) ∧
    tagListRequest db identity (some "0") =
      Except.ok (tagListQueryset db identity false) ∧
    tagListRequest db identity (some "abc") =
      Except.error ApiError.ConversionError ∧
    ApiError.ConversionError ≠ ApiError.ValidationError := by
  refine ⟨?_, rfl, rfl, rfl, rfl, rfl, rfl, rfl, rfl, rfl, rfl, by decide⟩
  cases hp : pyInt? s with
  | none => simp [tagListRequest, parseAssignedOnly, hp]
  | some n => simp [tagListRequest, parseAssignedOnly, hp]

/-- C6: with assigned_only=1 the tag list returns exactly the caller-owned
tags attached to at least one project, with no tag listed twice even when
attached to several projects. -/
theorem assigned_only_exactly_attached (db : DB) (identity : Nat) :
    tagListRequest db identity (some "1") =
      Except.ok (tagListQueryset db identity true) ∧
    (tagListQueryset db identity true).Nodup ∧
    (∀ t : Tag,
        t ∈ tagListQueryset db identity true ↔
          t ∈ db.tags ∧ t.owner = identity ∧ ∃ p ∈ db.projects, t.id ∈ p.tags) := by
  refine ⟨rfl, List.nodup_dedup _, fun t => ?_⟩
  rw [mem_tagListQueryset]
  simp

/-- C1: in a well-formed store, records of identity A are invisible to a
different authenticated identity B: they never appear in B's tag or
project lists, and B's retrieve, update or delete of A's project — and any
tag item request — fails with NotFound (never Forbidden), exactly like a
non-existent record. -/
theorem ownership_isolation (db : DB) (A B : Nat) (hWF : db.WF) (hne : A ≠ B) :
    (∀ t : Tag, t.owner = A → ∀ ao : Bool, t ∉ tagListQueryset db B ao) ∧
    (∀ p : Project, p.owner = A → p ∉ projectQueryset db B) ∧
    (∀ p ∈ db.projects, p.owner = A →
      retrieveProject db B p.id = Except.error ApiError.NotFound ∧
      retrieveProject db B p.id ≠ Except.error ApiError.Forbidden ∧
      (∀ (payload : Payload) (mode : UpdateMode),
        updateProject db B p.id payload mode = Except.error ApiError.NotFound) ∧
      deleteProject db B p.id = Except.error ApiError.NotFound ∧
      deleteProject db B p.id ≠ Except.error ApiError.Forbidden) ∧
    (∀ t ∈ db.tags, t.owner = A → ∀ a : ApiAction, isItemAction a = true →
      tagItemRequest db B t.id a = Except.error ApiError.NotFound) := by
  refine ⟨?_, ?_, ?_, ?_⟩
  · intro t ht ao hmem
    rw [mem_tagListQueryset] at hmem
    exact hne (ht.symm.trans hmem.2.1)
  · intro p hp hmem
    rw [mem_projectQueryset] at hmem
    exact hne (hp.symm.trans hmem.2)
  · intro p hp hpo
    have hfind := findProject_none_of_other_owner hWF hp hpo hne
    refine ⟨?_, ?_, ?_, ?_, ?_⟩
    · simp [retrieveProject, hfind]
    · simp [retrieveProject, hfind]
    · intro payload mode
      simp [updateProject, hfind]
    · simp [deleteProject, hfind]
    · simp [deleteProject, hfind]
  · intro t _ _ a _
    cases a <;> rfl

/-- C1 witness: the ownership-isolation theorem applied to a concrete
store in which identity 1 owns one tag and one project and identity 2 is
the requester. -/
theorem ownership_isolation_witness :
    DB.WF c1db ∧ (1 : Nat) ≠ 2 ∧
    ((∀ t : Tag, t.owner = 1 → ∀ ao : Bool, t ∉ tagListQueryset c1db 2 ao) ∧
     (∀ p : Project, p.owner = 1 → p ∉ projectQueryset c1db 2) ∧
     (∀ p ∈ c1db.projects, p.owner = 1 →
       retrieveProject c1db 2 p.id = Except.error ApiError.NotFound ∧
       retrieveProject c1db 2 p.id ≠ Except.error ApiError.Forbidden ∧
       (∀ (payload : Payload) (mode : UpdateMode),
         updateProject c1db 2 p.id payload mode = Except.error ApiError.NotFound) ∧
       deleteProject c1db 2 p.id = Except.error ApiError.NotFound ∧
       deleteProject c1db 2 p.id ≠ Except.error ApiError.Forbidden) ∧
     (∀ t ∈ c1db.tags, t.owner = 1 → ∀ a : ApiAction, isItemAction a = true →
       tagItemRequest c1db 2 t.id a = Except.error ApiError.NotFound)) :=
  ⟨by decide, by decide, ownership_isolation c1db 1 2 (by decide) (by decide)⟩

/-- C2 counterexample: the claim says a supplied tag reference not owned
by the acting identity makes the write fail, but identity 2 patching its
project with tag 5 — owned by identity 1 — succeeds and attaches the
tag. -/
theorem tags_cross_owner_accepted :
    updateProject c2db 2 10 c2payload UpdateMode.merge = Except.ok c2db2 ∧
    c2payload.tags = some [5] ∧
    c2db.tags.all (fun t => t.owner ≠ 2) = true ∧
    (c2db2.projects.map Project.tags) = [[5]] :=
  ⟨rfl, rfl, rfl, rfl⟩

/-- C2 amended: when a tags list is supplied on a project create or update
(either mode), the resulting tag set is exactly the supplied set, and the
write fails with ValidationError or NotFound whenever a supplied tag
reference does not exist in the tag store; an existing tag is accepted
regardless of its owner (referenced-tag ownership is not checked). -/
theorem tags_replacement_existence_check (db : DB) (identity pid newId : Nat)
    (payload : Payload) (mode : UpdateMode) (l : List Nat)
    (hl : payload.tags = some l) :
    (∀ db2 : DB, updateProject db identity pid payload mode = Except.ok db2 →
      ∀ q ∈ db2.projects, q.id = pid → q.owner = identity →
        ∀ x : Nat, x ∈ q.tags ↔ x ∈ l) ∧
    (tagsExist db l = false →
      updateProject db identity pid payload mode =
          Except.error ApiError.ValidationError ∨
        updateProject db identity pid payload mode =
          Except.error ApiError.NotFound) ∧
    (∀ p : Project, findProject db identity pid = some p →
      requiredPresent payload mode = true → tagsExist db l = true →
      ∃ db2 : DB, updateProject db identity pid payload mode = Except.ok db2) ∧
    (∀ db2 : DB, createProject db identity payload newId = Except.ok db2 →
      ∃ r : Project, db2.projects = db.projects ++ [r] ∧ r.owner = identity ∧
        ∀ x : Nat, x ∈ r.tags ↔ x ∈ l) ∧
    (tagsExist db l = false →
      createProject db identity payload newId =
        Except.error ApiError.ValidationError) := by
  have htv : effectiveTags payload mode = some l := effectiveTags_of_some hl mode
  refine ⟨?_, ?_, ?_, ?_, ?_⟩
  · intro db2 hok q hq hqid hqo x
    rw [updateProject_ok_iff] at hok
    obtain ⟨-, -, -, rfl⟩ := hok
    rcases List.mem_map.1 hq with ⟨orig, ho, rfl⟩
    by_cases hc : orig.id = pid ∧ orig.owner = identity
    · rw [if_pos hc]
      simp [applyUpdate, htv]
    · rw [if_neg hc] at hqid hqo
      exact absurd ⟨hqid, hqo⟩ hc
  · intro hne
    cases hf : findProject db identity pid with
    | none => right; simp [updateProject, hf]
    | some p =>
        left
        cases hr : requiredPresent payload mode with
        | false => simp [updateProject, hf, hr]
        | true => simp [updateProject, hf, hr, htv, hne]
  · intro p hf hr ht
    refine ⟨_, (updateProject_ok_iff).2 ⟨⟨p, hf⟩, hr, ?_, rfl⟩⟩
    rw [htv]
    simpa using ht
  · cases h1 : (payload.title.isSome && payload.description.isSome &&
        payload.price.isSome) with
    | false => intro db2 hok; simp [createProject, h1] at hok
    | true =>
        cases h2 : tagsExist db (payload.tags.getD []) with
        | false => intro db2 hok; simp [createProject, h1, h2] at hok
        | true =>
            intro db2 hok
            simp only [createProject, h1, h2, Bool.true_eq_false, if_false,
              Except.ok.injEq] at hok
            subst hok
            refine ⟨_, rfl, rfl, fun x => ?_⟩
            rw [hl]
            simp [List.mem_dedup]
  · intro hne
    cases h1 : (payload.title.isSome && payload.description.isSome &&
        payload.price.isSome) with
    | false => simp [createProject, h1]
    | true => simp [createProject, h1, hl, hne]

/-- C2 witness: the amended theorem applied to the concrete cross-owner
store, discharging the supplied-tags hypothesis at the list containing
tag 5. -/
theorem tags_replacement_existence_check_witness :
    c2payload.tags = some [5] ∧
    ((∀ db2 : DB, updateProject c2db 2 10 c2payload UpdateMode.merge = Except.ok db2 →
       ∀ q ∈ db2.projects, q.id = 10 → q.owner = 2 →
         ∀ x : Nat, x ∈ q.tags ↔ x ∈ [5]) ∧
     (tagsExist c2db [5] = false →
       updateProject c2db 2 10 c2payload UpdateMode.merge =
           Except.error ApiError.ValidationError ∨
         updateProject c2db 2 10 c2payload UpdateMode.merge =
           Except.error ApiError.NotFound) ∧
     (∀ p : Project, findProject c2db 2 10 = some p →
       requiredPresent c2payload UpdateMode.merge = true →
       tagsExist c2db [5] = true →
       ∃ db2 : DB,
         updateProject c2db 2 10 c2payload UpdateMode.merge = Except.ok db2) ∧
     (∀ db2 : DB, createProject c2db 2 c2payload 99 = Except.ok db2 →
       ∃ r : Project, db2.projects = c2db.projects ++ [r] ∧ r.owner = 2 ∧
         ∀ x : Nat, x ∈ r.tags ↔ x ∈ [5]) ∧
     (tagsExist c2db [5] = false →
       createProject c2db 2 c2payload 99 = Except.error ApiError.ValidationError)) :=
  ⟨rfl, tags_replacement_existence_check c2db 2 10 99 c2payload UpdateMode.merge [5]
    (by rfl)⟩

/-- C3: a successful full update (PUT) whose payload omits the tags field
leaves the target project with an empty tag set, even when the set was
non-empty before; the target does exist in the resulting store. -/
theorem full_update_omitted_tags_cleared (db : DB) (identity pid : Nat)
    (payload : Payload) (db2 : DB) (htags : payload.tags = none)
    (hok : updateProject db identity pid payload UpdateMode.full = Except.ok db2) :
    (∀ q ∈ db2.projects, q.id = pid → q.owner = identity → q.tags = []) ∧
    (∃ q ∈ db2.projects, q.id = pid ∧ q.owner = identity) := by
  rw [updateProject_ok_iff] at hok
  obtain ⟨⟨p, hp⟩, -, -, rfl⟩ := hok
  have htv : effectiveTags payload UpdateMode.full = some [] := by
    unfold effectiveTags
    rw [htags]
  have hpid : p.id = pid := by simpa using List.find?_some hp
  have hpq := List.mem_of_find?_eq_some hp
  rw [mem_projectQueryset] at hpq
  constructor
  · intro q hq hqid hqo
    rcases List.mem_map.1 hq with ⟨orig, ho, rfl⟩
    by_cases hc : orig.id = pid ∧ orig.owner = identity
    · rw [if_pos hc]
      simp [applyUpdate, htv]
    · rw [if_neg hc] at hqid hqo
      exact absurd ⟨hqid, hqo⟩ hc
  · refine ⟨applyUpdate p payload (effectiveTags payload UpdateMode.full),
      List.mem_map.2 ⟨p, hpq.1, by rw [if_pos ⟨hpid, hpq.2⟩]⟩, hpid, hpq.2⟩

/-- C3 witness: the theorem applied to the literal scenario of
test_full_update_project — a project tagged with tag 1, a PUT payload
carrying title, description and price but no tags — whose result clears
the tag set. -/
theorem full_update_omitted_tags_cleared_witness :
    c3payload.tags = none ∧
    updateProject c3db 1 10 c3payload UpdateMode.full = Except.ok c3db2 ∧
    ((∀ q ∈ c3db2.projects, q.id = 10 → q.owner = 1 → q.tags = []) ∧
     (∃ q ∈ c3db2.projects, q.id = 10 ∧ q.owner = 1)) :=
  ⟨rfl, rfl, full_update_omitted_tags_cleared c3db 1 10 c3payload c3db2 rfl rfl⟩

/-- C4: a successful partial update (PATCH) supplying only a tags list
replaces the target's tag set with exactly the supplied set and changes
nothing else: every other field of every project row is untouched, the
tag table is untouched, and the target exists. -/
theorem patch_tags_only_frame (db : DB) (identity pid : Nat) (l : List Nat)
    (db2 : DB)
    (hok : updateProject db identity pid
      { title := none, description := none, price := none, link := none,
        tags := some l } UpdateMode.merge = Except.ok db2) :
    db2.tags = db.tags ∧
    db2.projects = db.projects.map (fun q =>
      if q.id = pid ∧ q.owner = identity then
        { id := q.id, title := q.title, description := q.description,
          price := q.price, link := q.link, owner := q.owner, tags := l.dedup }
      else q) ∧
    (∀ x : Nat, x ∈ l.dedup ↔ x ∈ l) ∧
    (∃ q ∈ db.projects, q.id = pid ∧ q.owner = identity) := by
  rw [updateProject_ok_iff] at hok
  obtain ⟨⟨p, hp⟩, -, -, rfl⟩ := hok
  have hpid : p.id = pid := by simpa using List.find?_some hp
  have hpq := List.mem_of_find?_eq_some hp
  rw [mem_projectQueryset] at hpq
  exact ⟨rfl, rfl, fun x => List.mem_dedup, p, hpq.1, hpid, hpq.2⟩

/-- C4 witness: the theorem applied to the literal scenario of the partial
update test — a project tagged 1 and 2, a PATCH supplying only tag 3 —
whose result carries exactly tag 3 with all scalar fields unchanged. -/
theorem patch_tags_only_frame_witness :
    updateProject c4db 1 10
      { title := none, description := none, price := none, link := none,
        tags := some [3] } UpdateMode.merge = Except.ok c4db2 ∧
    (c4db2.tags = c4db.tags ∧
     c4db2.projects = c4db.projects.map (fun q =>
       if q.id = 10 ∧ q.owner = 1 then
         { id := q.id, title := q.title, description := q.description,
           price := q.price, link := q.link, owner := q.owner,
           tags := List.dedup [3] }
       else q) ∧
     (∀ x : Nat, x ∈ List.dedup [3] ↔ x ∈ [3]) ∧
     (∃ q ∈ c4db.projects, q.id = 10 ∧ q.owner = 1)) :=
  ⟨rfl, patch_tags_only_frame c4db 1 10 [3] c4db2 rfl⟩

end ProjectsApp
